import Mathlib

/-!
Verification of the multi-vendor restaurant marketplace models and utilities.

This development shallowly embeds the Python/Django code of the repository:

* `vendor/models.py`: `Vendor.is_open` (the availability evaluator over
  `OpeningHour` rows), `Vendor.save` (the approval-notification trigger),
  and the `HOUR_OF_DAY_24` half-hour slot enumeration;
* `accounts/models.py`: `User.get_role` and `UserProfile.save`;
* `accounts/utils.py`: `detectUser` and `send_notification`;
* `accounts/context_processors.py`: `get_vendor` and `get_user_profile`.

Machine-level details of the host language that the code relies on are made
explicit: Python string comparison is lexicographic comparison of code
points (`strLt`), `strftime("%H:%M:%S")` zero-pads each component
(`timeStr`), `strftime("%I:%M %p")` and `strptime(_, "%I:%M %p")` convert
between 24-hour times and 12-hour clock strings (`strftimeIMp`,
`strptimeIMp`), and reading a local variable that was never assigned raises
`UnboundLocalError` (modelled with `Except`).
-/

/-- A time of day, as produced by `datetime.now().time()` or
`datetime.strptime(s, "%I:%M %p").time()`: hour, minute, second. -/
structure Time where
  hour : Nat
  minute : Nat
  second : Nat
deriving DecidableEq

/-- A well-formed time of day. -/
def ValidTime (t : Time) : Prop :=
  t.hour < 24 ∧ t.minute < 60 ∧ t.second < 60

instance (t : Time) : Decidable (ValidTime t) := by
  unfold ValidTime; infer_instance

/-- Seconds since midnight: the direct numeric value of a time of day, the
reference order against which the string comparison is measured. -/
def secondsOfDay (t : Time) : Nat :=
  t.hour * 3600 + t.minute * 60 + t.second

/-- The decimal digit characters used by zero padding. -/
def digitChar (d : Nat) : Char :=
  match d with
  | 0 => '0' | 1 => '1' | 2 => '2' | 3 => '3' | 4 => '4'
  | 5 => '5' | 6 => '6' | 7 => '7' | 8 => '8' | _ => '9'

/-- Python string comparison `s < t`: lexicographic on code points, a
proper prefix is smaller. All strings compared here are ASCII. -/
def strLt : List Char → List Char → Bool
  | [], [] => false
  | [], _ :: _ => true
  | _ :: _, [] => false
  | a :: as, b :: bs =>
    if a.toNat < b.toNat then true
    else if b.toNat < a.toNat then false
    else strLt as bs

/-- Zero padding to two digits, as in `%H`, `%M`, `%S`. -/
def pad2 (n : Nat) : List Char :=
  [digitChar (n / 10), digitChar (n % 10)]

/-- The text of `now.strftime("%H:%M:%S")`, and likewise of
`str(datetime.strptime(h, "%I:%M %p").time())`: zero-padded `HH:MM:SS`. -/
def timeStr (t : Time) : List Char :=
  pad2 t.hour ++ ':' :: (pad2 t.minute ++ ':' :: pad2 t.second)

/-- The content of a `"%I:%M %p"` string: 12-hour clock hour (1..12),
minute, and the AM/PM marker. -/
structure Slot12 where
  hour12 : Nat
  minute : Nat
  isPM : Bool
deriving DecidableEq

/-- `time(h, m).strftime("%I:%M %p")`: render a 24-hour time as a 12-hour
clock string. `%I` maps hour 0 to 12 and hour 13 to 01; `%p` is PM exactly
for hours 12..23. -/
def strftimeIMp (h m : Nat) : Slot12 :=
  ⟨if h % 12 = 0 then 12 else h % 12, m, decide (12 ≤ h)⟩

/-- `HOUR_OF_DAY_24` from `vendor/models.py`: the 48 half-hour slots of a
day rendered as 12-hour clock strings (the stored value of each choice). -/
def HOUR_OF_DAY_24 : List Slot12 :=
  (List.range 24).flatMap (fun h => [strftimeIMp h 0, strftimeIMp h 30])

/-- `datetime.strptime(s, "%I:%M %p").time()`: parse a 12-hour clock string
back to a 24-hour time. `%I` value 12 stands for 0 (AM) or 12 (PM). -/
def strptimeIMp (s : Slot12) : Time :=
  ⟨if s.isPM then s.hour12 % 12 + 12 else s.hour12 % 12, s.minute, 0⟩

/-- An `OpeningHour` row: day of week (1..7), from/to hour as 12-hour slot
strings, and the closed flag. -/
structure OpeningHour where
  day : Nat
  from_hour : Slot12
  to_hour : Slot12
  is_closed : Bool
deriving DecidableEq

/-- The loop body of `Vendor.is_open`: iterate over the day's rows with the
mutable `is_open` variable (initially `None`) as accumulator. A closed row
is skipped; a non-closed row whose window strictly contains the current
time sets `True` and breaks; any other non-closed row sets `False`. -/
def isOpenLoop (current_time : List Char) :
    List OpeningHour → Option Bool → Option Bool
  | [], acc => acc
  | i :: rest, acc =>
    if i.is_closed then
      isOpenLoop current_time rest acc
    else if strLt (timeStr (strptimeIMp i.from_hour)) current_time
        && strLt current_time (timeStr (strptimeIMp i.to_hour)) then
      some true
    else
      isOpenLoop current_time rest (some false)

/-- `Vendor.is_open`: filter the vendor's rows to the current day, render
`now` as an `"%H:%M:%S"` string, and run the loop starting from `None`. -/
def Vendor.is_open (today : Nat) (now : Time) (rows : List OpeningHour) :
    Option Bool :=
  isOpenLoop (timeStr now) (rows.filter (fun i => i.day == today)) none

/-- One non-closed row matches when the current-time string lies strictly
between the row's rendered from/to strings; used to characterise the loop. -/
def rowMatches (current_time : List Char) (i : OpeningHour) : Bool :=
  !i.is_closed
    && (strLt (timeStr (strptimeIMp i.from_hour)) current_time
        && strLt current_time (timeStr (strptimeIMp i.to_hour)))

/-- The `to_email` entry of a notification context: either a single address
string or a collection of addresses (`isinstance(context['to_email'], str)`
distinguishes the two). -/
inductive ToEmail where
  | single (s : String)
  | multi (l : List String)
deriving DecidableEq

/-- An outgoing `EmailMessage`: subject, the template the body was rendered
from, the recipient collection, and the content subtype. -/
structure Email where
  subject : String
  body_template : String
  to_list : List String
  content_subtype : String
deriving DecidableEq

/-- `send_notification` from `accounts/utils.py`: normalize a single
address into a one-element collection, keep a collection as-is, render the
body from `mail_template`, and send with HTML content subtype. -/
def send_notification (mail_subject mail_template : String)
    (to_email : ToEmail) : Email :=
  let recipients : List String :=
    match to_email with
    | .single s => [s]
    | .multi l => l
  { subject := mail_subject, body_template := mail_template,
    to_list := recipients, content_subtype := "html" }

/-- Subject of the approval notification in `Vendor.save`. -/
def approvedSubject : String :=
  "Congratulations! Your restaurant has been approved."

/-- Subject of the rejection notification in `Vendor.save`. -/
def rejectedSubject : String :=
  "We're sorry! You are not eligible for publishing your food menu on our marketplace."

/-- Template used by both approval notifications in `Vendor.save`. -/
def approvalTemplate : String :=
  "accounts/emails/admin_approval_email.html"

/-- The notification side effect of `Vendor.save`: given the primary key of
the record being saved, the stored approval flag of the original record and
the incoming flag, return the notifications dispatched, each to the user's
email as a single-address `to_email`. -/
def Vendor.save (pk : Option Nat) (orig_is_approved is_approved : Bool)
    (user_email : String) : List Email :=
  match pk with
  | none => []
  | some _ =>
    if orig_is_approved ≠ is_approved then
      if is_approved = true then
        [send_notification approvedSubject approvalTemplate
          (.single user_email)]
      else
        [send_notification rejectedSubject approvalTemplate
          (.single user_email)]
    else []

/-- A geometry point as built by `Point(x, y)`: first coordinate first. -/
structure Point where
  x : ℚ
  y : ℚ
deriving DecidableEq

/-- The numeric value of a run of decimal digit characters. -/
def digitsVal (cs : List Char) : Nat :=
  cs.foldl (fun acc c => acc * 10 + (c.toNat - 48)) 0

/-- Whether a character is a decimal digit (code points 48..57). -/
def isDigitChar (c : Char) : Bool :=
  48 ≤ c.toNat && c.toNat ≤ 57

/-- Decompose a plain decimal literal: sign, integer-part value, and
fraction-part value together with its digit count. -/
def parseDec (cs : List Char) : Bool × Nat × Nat × Nat :=
  let isNeg : Bool := (cs.headD ' ').toNat == 45
  let body : List Char :=
    if (cs.headD ' ').toNat = 45 ∨ (cs.headD ' ').toNat = 43 then cs.tail
    else cs
  let intPart := body.takeWhile isDigitChar
  let rest := body.dropWhile isDigitChar
  let fracPart : List Char :=
    if (rest.headD ' ').toNat = 46 then rest.tail.takeWhile isDigitChar
    else []
  (isNeg, digitsVal intPart, digitsVal fracPart, fracPart.length)

/-- Python `float` restricted to the plain decimal literals the coordinate
fields hold: optional sign, integer digits, optional fraction digits. The
value is kept exact as a rational. -/
def pyFloat (cs : List Char) : ℚ :=
  let p := parseDec cs
  (if p.1 then (-1 : ℚ) else 1)
    * ((p.2.1 : ℚ) + (p.2.2.1 : ℚ) / (10 : ℚ) ^ p.2.2.2)

/-- `UserProfile.save`: when both latitude and longitude are truthy
(present and non-empty), the stored location becomes
`Point(float(longitude), float(latitude))`; otherwise the location field is
left as it was. Returns the location after the save. -/
def UserProfile.save (latitude longitude : Option (List Char))
    (location : Option Point) : Option Point :=
  match latitude, longitude with
  | some lat, some lng =>
    if lat ≠ [] ∧ lng ≠ [] then some ⟨pyFloat lng, pyFloat lat⟩
    else location
  | _, _ => location

/-- `detectUser` from `accounts/utils.py`: role 1 resolves to the vendor
dashboard, role 2 to the customer dashboard, a null role with the
superadmin flag to the admin panel; any other combination falls off the end
of the function, which returns no route (`None`). -/
def detectUser (role : Option Nat) (is_superadmin : Bool) :
    Option String :=
  if role = some 1 then some "vendorDashboard"
  else if role = some 2 then some "custDashboard"
  else if role = none ∧ is_superadmin = true then some "/admin"
  else none

/-- `User.get_role`: assigns `user_role` only for roles 1 and 2; for any
other role the trailing `return user_role` reads an unassigned local, which
raises `UnboundLocalError` — modelled as the error branch. -/
def User.get_role (role : Option Nat) : Except String String :=
  if role = some 1 then .ok "Vendor"
  else if role = some 2 then .ok "Customer"
  else .error "UnboundLocalError"

/-- A `Vendor` table row as seen by the context processors: the linked user
id and the vendor name. -/
structure VendorRow where
  user : Nat
  vendor_name : String
deriving DecidableEq

/-- A `UserProfile` table row as seen by the context processors. -/
structure UserProfileRow where
  user : Nat
deriving DecidableEq

/-- `Model.objects.get(...)`: exactly one matching row is returned;
no match raises `DoesNotExist`, several raise `MultipleObjectsReturned`. -/
def objects_get {α : Type} (db : List α) (p : α → Bool) :
    Except String α :=
  match db.filter p with
  | [a] => .ok a
  | [] => .error "DoesNotExist"
  | _ => .error "MultipleObjectsReturned"

/-- `get_vendor` context processor: look the current user's vendor up and
turn any lookup failure into `None` (the bare `except` clause). -/
def get_vendor (db : List VendorRow) (request_user : Nat) :
    Option VendorRow :=
  match objects_get db (fun v => v.user == request_user) with
  | .ok v => some v
  | .error _ => none

/-- `get_user_profile` context processor: same shape for profiles. -/
def get_user_profile (db : List UserProfileRow) (request_user : Nat) :
    Option UserProfileRow :=
  match objects_get db (fun p => p.user == request_user) with
  | .ok p => some p
  | .error _ => none

/-- Each digit character has code point 48 + its value. -/
theorem digitChar_toNat (d : Nat) (hd : d < 10) :
    (digitChar d).toNat = 48 + d := by
  interval_cases d <;> rfl

theorem strLt_cons_of_lt {a b : Char} {as bs : List Char}
    (h : a.toNat < b.toNat) : strLt (a :: as) (b :: bs) = true := by
  simp only [strLt]
  rw [if_pos h]

theorem strLt_cons_of_gt {a b : Char} {as bs : List Char}
    (h : b.toNat < a.toNat) : strLt (a :: as) (b :: bs) = false := by
  simp only [strLt]
  rw [if_neg (by omega), if_pos h]

theorem strLt_cons_self {a : Char} {as bs : List Char} :
    strLt (a :: as) (a :: bs) = strLt as bs := by
  simp only [strLt]
  rw [if_neg (by omega), if_neg (by omega)]

/-- Comparing two zero-padded two-digit blocks at the head of two strings:
the smaller number wins; on a tie the comparison moves past the block. -/
theorem strLt_pad2 (a b : Nat) (ha : a < 100) (hb : b < 100)
    (xs ys : List Char) :
    strLt (pad2 a ++ xs) (pad2 b ++ ys) =
      (decide (a < b) || (decide (a = b) && strLt xs ys)) := by
  have h10a : a / 10 < 10 := by omega
  have h10b : b / 10 < 10 := by omega
  have hma : a % 10 < 10 := by omega
  have hmb : b % 10 < 10 := by omega
  simp only [pad2, List.cons_append, List.nil_append]
  rcases Nat.lt_trichotomy (a / 10) (b / 10) with h | h | h
  · rw [strLt_cons_of_lt
      (by rw [digitChar_toNat _ h10a, digitChar_toNat _ h10b]; omega)]
    have hab : a < b := by omega
    simp [hab]
  · rw [h, strLt_cons_self]
    rcases Nat.lt_trichotomy (a % 10) (b % 10) with h2 | h2 | h2
    · rw [strLt_cons_of_lt
        (by rw [digitChar_toNat _ hma, digitChar_toNat _ hmb]; omega)]
      have hab : a < b := by omega
      simp [hab]
    · have hab : a = b := by omega
      subst hab
      rw [strLt_cons_self]
      simp
    · rw [strLt_cons_of_gt
        (by rw [digitChar_toNat _ hma, digitChar_toNat _ hmb]; omega)]
      have hab1 : ¬ a < b := by omega
      have hab2 : a ≠ b := by omega
      simp [hab1, hab2]
  · rw [strLt_cons_of_gt
      (by rw [digitChar_toNat _ h10a, digitChar_toNat _ h10b]; omega)]
    have hab1 : ¬ a < b := by omega
    have hab2 : a ≠ b := by omega
    simp [hab1, hab2]

theorem strLt_pad2_nil (a b : Nat) (ha : a < 100) (hb : b < 100) :
    strLt (pad2 a) (pad2 b) = decide (a < b) := by
  have h := strLt_pad2 a b ha hb [] []
  simp only [List.append_nil] at h
  rw [h]
  simp [strLt]

/-- On well-formed times, the lexicographic comparison of the zero-padded
`HH:MM:SS` strings agrees with the numeric comparison of the times. -/
theorem strLt_timeStr (t u : Time) (ht : ValidTime t) (hu : ValidTime u) :
    strLt (timeStr t) (timeStr u) =
      decide (secondsOfDay t < secondsOfDay u) := by
  obtain ⟨h1, h2, h3⟩ := ht
  obtain ⟨h4, h5, h6⟩ := hu
  simp only [timeStr]
  rw [strLt_pad2 _ _ (by omega) (by omega), strLt_cons_self,
    strLt_pad2 _ _ (by omega) (by omega), strLt_cons_self,
    strLt_pad2_nil _ _ (by omega) (by omega)]
  rw [show (decide (t.hour < u.hour)
        || (decide (t.hour = u.hour)
            && (decide (t.minute < u.minute)
                || (decide (t.minute = u.minute)
                    && decide (t.second < u.second)))))
      = decide (t.hour < u.hour
        ∨ (t.hour = u.hour
          ∧ (t.minute < u.minute
            ∨ (t.minute = u.minute ∧ t.second < u.second)))) by simp]
  rw [decide_eq_decide]
  simp only [secondsOfDay]
  omega

/-- Every stored slot parses back to a well-formed time of day. -/
theorem validTime_of_mem_slots :
    ∀ s ∈ HOUR_OF_DAY_24, ValidTime (strptimeIMp s) := by decide

/-- Closed characterisation of the evaluator loop: the result is OPEN when
some non-closed row strictly contains the current time, otherwise CLOSED
when some non-closed row exists, otherwise the starting accumulator. -/
theorem isOpenLoop_eq (t : List Char) (rows : List OpeningHour)
    (acc : Option Bool) :
    isOpenLoop t rows acc =
      if rows.any (rowMatches t) then some true
      else if rows.any (fun i => !i.is_closed) then some false
      else acc := by
  induction rows generalizing acc with
  | nil => simp [isOpenLoop]
  | cons i rest ih =>
    simp only [isOpenLoop, List.any_cons]
    by_cases hc : i.is_closed
    · rw [if_pos hc, ih]
      simp [rowMatches, hc]
    · rw [if_neg hc]
      by_cases hm : (strLt (timeStr (strptimeIMp i.from_hour)) t
          && strLt t (timeStr (strptimeIMp i.to_hour))) = true
      · rw [if_pos hm]
        have hrm : rowMatches t i = true := by
          simp [rowMatches, hc, hm]
        simp [hrm]
      · rw [if_neg hm, ih]
        have hx : (strLt (timeStr (strptimeIMp i.from_hour)) t
            && strLt t (timeStr (strptimeIMp i.to_hour))) = false :=
          Bool.eq_false_iff.mpr hm
        have hrm : rowMatches t i = false := by
          simp [rowMatches, hx]
        have hnc : (!i.is_closed) = true := by simp [hc]
        simp only [hrm, hnc, Bool.false_or, Bool.true_or, if_true]
        by_cases h1 : rest.any (rowMatches t) = true
        · simp [h1]
        · simp [h1]

/-- C1: for a non-closed `OpeningHour` row for the current day, the
evaluator reports OPEN exactly when the probe time is strictly between
`from_hour` and `to_hour`; in particular a probe equal to either boundary
is not OPEN. -/
theorem c1_strict_window (i : OpeningHour) (today : Nat) (now : Time)
    (hday : i.day = today) (hclosed : i.is_closed = false)
    (hfrom : i.from_hour ∈ HOUR_OF_DAY_24) (hto : i.to_hour ∈ HOUR_OF_DAY_24)
    (hnow : ValidTime now) :
    Vendor.is_open today now [i] = some true ↔
      (secondsOfDay (strptimeIMp i.from_hour) < secondsOfDay now
        ∧ secondsOfDay now < secondsOfDay (strptimeIMp i.to_hour)) := by
  have hf := validTime_of_mem_slots _ hfrom
  have ht := validTime_of_mem_slots _ hto
  unfold Vendor.is_open
  have hfilter : ([i].filter (fun r => r.day == today)) = [i] := by
    simp [List.filter, hday]
  rw [hfilter, isOpenLoop_eq]
  simp only [List.any_cons, List.any_nil, Bool.or_false]
  rw [show rowMatches (timeStr now) i
      = (strLt (timeStr (strptimeIMp i.from_hour)) (timeStr now)
          && strLt (timeStr now) (timeStr (strptimeIMp i.to_hour))) from by
    simp [rowMatches, hclosed]]
  rw [strLt_timeStr _ _ hf hnow, strLt_timeStr _ _ hnow ht]
  by_cases h1 : secondsOfDay (strptimeIMp i.from_hour) < secondsOfDay now
    <;> by_cases h2 : secondsOfDay now < secondsOfDay (strptimeIMp i.to_hour)
    <;> simp [h1, h2, hclosed]

/-- C1 witness: the 09:00 AM - 05:00 PM row is OPEN at 12:00:00 (through
`c1_strict_window`) and not OPEN at either boundary probe. -/
theorem c1_witness :
    Vendor.is_open 1 ⟨12, 0, 0⟩
        [⟨1, strftimeIMp 9 0, strftimeIMp 17 0, false⟩] = some true
    ∧ Vendor.is_open 1 ⟨9, 0, 0⟩
        [⟨1, strftimeIMp 9 0, strftimeIMp 17 0, false⟩] ≠ some true
    ∧ Vendor.is_open 1 ⟨17, 0, 0⟩
        [⟨1, strftimeIMp 9 0, strftimeIMp 17 0, false⟩] ≠ some true :=
  ⟨(c1_strict_window ⟨1, strftimeIMp 9 0, strftimeIMp 17 0, false⟩ 1
      ⟨12, 0, 0⟩ rfl rfl (by decide) (by decide) (by decide)).mpr (by decide),
    by decide, by decide⟩

/-- C2: when no row matches the current day, or every matching row is
closed, the evaluator returns `none` (UNDETERMINED), which is distinct from
`some false` (CLOSED). -/
theorem c2_undetermined (today : Nat) (now : Time)
    (rows : List OpeningHour)
    (h : ∀ i ∈ rows, i.day = today → i.is_closed = true) :
    Vendor.is_open today now rows = none
      ∧ (none : Option Bool) ≠ some false := by
  refine ⟨?_, by simp⟩
  unfold Vendor.is_open
  rw [isOpenLoop_eq]
  have hall : ∀ i ∈ rows.filter (fun i => i.day == today),
      i.is_closed = true := by
    intro i hi
    rw [List.mem_filter] at hi
    exact h i hi.1 (by simpa using hi.2)
  have h1 : ¬((rows.filter (fun i => i.day == today)).any
      (rowMatches (timeStr now)) = true) := by
    intro hc
    rw [List.any_eq_true] at hc
    obtain ⟨i, hi, hp⟩ := hc
    simp [rowMatches, hall i hi] at hp
  have h2 : ¬((rows.filter (fun i => i.day == today)).any
      (fun i => !i.is_closed) = true) := by
    intro hc
    rw [List.any_eq_true] at hc
    obtain ⟨i, hi, hp⟩ := hc
    simp [hall i hi] at hp
  rw [if_neg h1, if_neg h2]

/-- C2 witness: one closed row for day 1 and one non-closed row for day 2
leave the day-1 availability UNDETERMINED. -/
theorem c2_witness :
    (∀ i ∈ ([⟨1, strftimeIMp 9 0, strftimeIMp 17 0, true⟩,
          ⟨2, strftimeIMp 9 0, strftimeIMp 17 0, false⟩] :
          List OpeningHour), i.day = 1 → i.is_closed = true)
    ∧ (Vendor.is_open 1 ⟨12, 0, 0⟩
          [⟨1, strftimeIMp 9 0, strftimeIMp 17 0, true⟩,
           ⟨2, strftimeIMp 9 0, strftimeIMp 17 0, false⟩] = none
        ∧ (none : Option Bool) ≠ some false) :=
  ⟨by decide,
    c2_undetermined 1 ⟨12, 0, 0⟩
      [⟨1, strftimeIMp 9 0, strftimeIMp 17 0, true⟩,
       ⟨2, strftimeIMp 9 0, strftimeIMp 17 0, false⟩] (by decide)⟩

/-- C3: saving an existing `Vendor` whose stored approval flag differs from
the incoming one dispatches exactly one notification — with the approval
subject when the new flag is true and the rejection subject when it is
false — to the user's email; an unchanged flag or a new record dispatches
none. -/
theorem c3_approval_notifications (pk : Option Nat)
    (orig_is_approved is_approved : Bool) (user_email : String) :
    Vendor.save pk orig_is_approved is_approved user_email =
      if pk ≠ none ∧ orig_is_approved ≠ is_approved then
        [{ subject := if is_approved then approvedSubject
             else rejectedSubject,
           body_template := approvalTemplate,
           to_list := [user_email],
           content_subtype := "html" }]
      else [] := by
  cases pk <;> cases orig_is_approved <;> cases is_approved <;>
    simp [Vendor.save, send_notification]

theorem any_eq_of_perm {l1 l2 : List OpeningHour} (h : l1.Perm l2)
    (p : OpeningHour → Bool) : l1.any p = l2.any p := by
  cases h1 : l1.any p <;> cases h2 : l2.any p <;> try rfl
  · rw [List.any_eq_true] at h2
    obtain ⟨x, hx, hpx⟩ := h2
    have hmem : x ∈ l1 := h.mem_iff.mpr hx
    have hcontra := List.any_eq_true.mpr ⟨x, hmem, hpx⟩
    rw [h1] at hcontra
    exact absurd hcontra (by simp)
  · rw [List.any_eq_true] at h1
    obtain ⟨x, hx, hpx⟩ := h1
    have hmem : x ∈ l2 := h.mem_iff.mp hx
    have hcontra := List.any_eq_true.mpr ⟨x, hmem, hpx⟩
    rw [h2] at hcontra
    exact absurd hcontra (by simp)

theorem is_open_perm (today : Nat) (now : Time)
    {rows1 rows2 : List OpeningHour} (h : rows1.Perm rows2) :
    Vendor.is_open today now rows1 = Vendor.is_open today now rows2 := by
  unfold Vendor.is_open
  have hp : (rows1.filter (fun i => i.day == today)).Perm
      (rows2.filter (fun i => i.day == today)) := h.filter _
  rw [isOpenLoop_eq, isOpenLoop_eq, any_eq_of_perm hp, any_eq_of_perm hp]

/-- C4 counterexample: no two iteration orders of the same rows ever give
different availability results — there is no row set (with or without
multiple non-overlapping non-closed windows) whose result depends on the
iteration order, refuting the claimed order dependence. -/
theorem c4_counterexample :
    ¬ ∃ (today : Nat) (now : Time) (rows1 rows2 : List OpeningHour),
        rows1.Perm rows2
        ∧ Vendor.is_open today now rows1 ≠ Vendor.is_open today now rows2 := by
  rintro ⟨today, now, rows1, rows2, hperm, hne⟩
  exact hne (is_open_perm today now hperm)

/-- C4 (amended): the availability result is independent of the iteration
order — any two orderings (permutations) of the same `OpeningHour` rows
evaluate to the same result. -/
theorem c4_order_independent (today : Nat) (now : Time)
    (rows1 rows2 : List OpeningHour) (h : rows1.Perm rows2) :
    Vendor.is_open today now rows1 = Vendor.is_open today now rows2 :=
  is_open_perm today now h

/-- C4 witness: two orderings of two non-overlapping non-closed windows
for the same day give equal results. -/
theorem c4_witness :
    ([⟨1, strftimeIMp 9 0, strftimeIMp 11 0, false⟩,
      ⟨1, strftimeIMp 13 0, strftimeIMp 17 0, false⟩] :
      List OpeningHour).Perm
      [⟨1, strftimeIMp 13 0, strftimeIMp 17 0, false⟩,
       ⟨1, strftimeIMp 9 0, strftimeIMp 11 0, false⟩]
    ∧ Vendor.is_open 1 ⟨10, 0, 0⟩
        [⟨1, strftimeIMp 9 0, strftimeIMp 11 0, false⟩,
         ⟨1, strftimeIMp 13 0, strftimeIMp 17 0, false⟩]
      = Vendor.is_open 1 ⟨10, 0, 0⟩
        [⟨1, strftimeIMp 13 0, strftimeIMp 17 0, false⟩,
         ⟨1, strftimeIMp 9 0, strftimeIMp 11 0, false⟩] :=
  ⟨by decide,
    c4_order_independent 1 ⟨10, 0, 0⟩
      [⟨1, strftimeIMp 9 0, strftimeIMp 11 0, false⟩,
       ⟨1, strftimeIMp 13 0, strftimeIMp 17 0, false⟩]
      [⟨1, strftimeIMp 13 0, strftimeIMp 17 0, false⟩,
       ⟨1, strftimeIMp 9 0, strftimeIMp 11 0, false⟩] (by decide)⟩

/-- C5: saving a `UserProfile` with both coordinates present derives the
location point `(longitude, latitude)`, in that coordinate order. -/
theorem c5_location (lat lng : List Char) (loc : Option Point)
    (hlat : lat ≠ []) (hlng : lng ≠ []) :
    UserProfile.save (some lat) (some lng) loc
      = some ⟨pyFloat lng, pyFloat lat⟩ := by
  simp only [UserProfile.save]
  rw [if_pos ⟨hlat, hlng⟩]

/-- C5 witness: latitude `"12.9"` and longitude `"77.6"` derive the point
`(77.6, 12.9)`. -/
theorem c5_witness :
    (['1', '2', '.', '9'] : List Char) ≠ []
    ∧ (['7', '7', '.', '6'] : List Char) ≠ []
    ∧ UserProfile.save (some ['1', '2', '.', '9'])
        (some ['7', '7', '.', '6']) none
      = some ⟨(776 : ℚ) / 10, (129 : ℚ) / 10⟩ := by
  refine ⟨by decide, by decide, ?_⟩
  rw [c5_location ['1', '2', '.', '9'] ['7', '7', '.', '6'] none
    (by decide) (by decide)]
  have hp1 : parseDec ['7', '7', '.', '6'] = (false, 77, 6, 1) := by decide
  have hp2 : parseDec ['1', '2', '.', '9'] = (false, 12, 9, 1) := by decide
  simp only [pyFloat, hp1, hp2, Option.some.injEq, Point.mk.injEq]
  norm_num

/-- C6: `detectUser` resolves role 1 to the vendor dashboard, role 2 to the
customer dashboard, and a null role with the superadmin flag to the admin
route; every other combination yields no route. -/
theorem c6_detectUser (role : Option Nat) (is_superadmin : Bool) :
    detectUser (some 1) is_superadmin = some "vendorDashboard"
    ∧ detectUser (some 2) is_superadmin = some "custDashboard"
    ∧ detectUser none true = some "/admin"
    ∧ (role ≠ some 1 → role ≠ some 2 →
        ¬(role = none ∧ is_superadmin = true) →
        detectUser role is_superadmin = none) := by
  refine ⟨rfl, rfl, rfl, fun h1 h2 h3 => ?_⟩
  unfold detectUser
  rw [if_neg h1, if_neg h2, if_neg h3]

/-- C6 witness: an out-of-range role yields no route. -/
theorem c6_witness :
    (some 3 : Option Nat) ≠ some 1 ∧ (some 3 : Option Nat) ≠ some 2
    ∧ ¬((some 3 : Option Nat) = none ∧ true = true)
    ∧ detectUser (some 3) true = none :=
  ⟨by decide, by decide, by simp,
    (c6_detectUser (some 3) true).2.2.2 (by decide) (by decide) (by simp)⟩

/-- C7: `send_notification` normalizes a single-address `to_email` into a
one-element collection, keeps a collection as-is, always renders from the
named template and sends with HTML content subtype. -/
theorem c7_send_notification (mail_subject mail_template : String)
    (s : String) (l : List String) (te : ToEmail) :
    (send_notification mail_subject mail_template (.single s)).to_list = [s]
    ∧ (send_notification mail_subject mail_template (.multi l)).to_list = l
    ∧ (send_notification mail_subject mail_template te).body_template
        = mail_template
    ∧ (send_notification mail_subject mail_template te).content_subtype
        = "html" :=
  ⟨rfl, rfl, rfl, rfl⟩

/-- C8: when the vendor or user-profile lookup matches no row, the context
processor returns `none` instead of propagating the lookup error. -/
theorem c8_lookup_failures (vdb : List VendorRow)
    (pdb : List UserProfileRow) (u : Nat)
    (hv : vdb.filter (fun v => v.user == u) = [])
    (hp : pdb.filter (fun p => p.user == u) = []) :
    get_vendor vdb u = none ∧ get_user_profile pdb u = none := by
  unfold get_vendor get_user_profile objects_get
  rw [hv, hp]
  exact ⟨rfl, rfl⟩

/-- C8 witness: a user with no vendor row and no profile row gets `none`
from both context processors. -/
theorem c8_witness :
    ([⟨2, "Taco Stand"⟩] : List VendorRow).filter (fun v => v.user == 1) = []
    ∧ ([⟨2⟩] : List UserProfileRow).filter (fun p => p.user == 1) = []
    ∧ get_vendor [⟨2, "Taco Stand"⟩] 1 = none
    ∧ get_user_profile [⟨2⟩] 1 = none := by
  refine ⟨by decide, by decide, ?_⟩
  exact c8_lookup_failures [⟨2, "Taco Stand"⟩] [⟨2⟩] 1 (by decide) (by decide)

/-- C9: `User.get_role` returns `Vendor` for role 1 and `Customer` for role
2, and for any other role reading the never-assigned local raises
`UnboundLocalError` — the error outcome, not a value. -/
theorem c9_get_role (role : Option Nat) :
    User.get_role (some 1) = .ok "Vendor"
    ∧ User.get_role (some 2) = .ok "Customer"
    ∧ (role ≠ some 1 → role ≠ some 2 →
        User.get_role role = .error "UnboundLocalError") := by
  refine ⟨rfl, rfl, fun h1 h2 => ?_⟩
  unfold User.get_role
  rw [if_neg h1, if_neg h2]

/-- C9 witness: a null role (an admin) hits the error branch. -/
theorem c9_witness :
    (none : Option Nat) ≠ some 1 ∧ (none : Option Nat) ≠ some 2
    ∧ User.get_role none = .error "UnboundLocalError" :=
  ⟨by decide, by decide, (c9_get_role none).2.2 (by decide) (by decide)⟩

/-- C10: for stored half-hour slots and any probe time, the lexicographic
comparison of the zero-padded `HH:MM:SS` strings (as `Vendor.is_open`
performs it) agrees with the direct numeric comparison of the underlying
times — slot against slot and probe against slot in both directions. -/
theorem c10_string_time_refinement (s1 s2 : Slot12) (probe : Time)
    (hs1 : s1 ∈ HOUR_OF_DAY_24) (hs2 : s2 ∈ HOUR_OF_DAY_24)
    (hprobe : ValidTime probe) :
    (strLt (timeStr (strptimeIMp s1)) (timeStr (strptimeIMp s2)) = true
      ↔ secondsOfDay (strptimeIMp s1) < secondsOfDay (strptimeIMp s2))
    ∧ (strLt (timeStr probe) (timeStr (strptimeIMp s1)) = true
      ↔ secondsOfDay probe < secondsOfDay (strptimeIMp s1))
    ∧ (strLt (timeStr (strptimeIMp s1)) (timeStr probe) = true
      ↔ secondsOfDay (strptimeIMp s1) < secondsOfDay probe) := by
  have h1 := validTime_of_mem_slots s1 hs1
  have h2 := validTime_of_mem_slots s2 hs2
  refine ⟨?_, ?_, ?_⟩
  · rw [strLt_timeStr _ _ h1 h2]; simp
  · rw [strLt_timeStr _ _ hprobe h1]; simp
  · rw [strLt_timeStr _ _ h1 hprobe]; simp

/-- C10 witness: the 09:00 AM and 05:00 PM slots against the 12:00:00
probe. -/
theorem c10_witness :
    (strLt (timeStr (strptimeIMp (strftimeIMp 9 0)))
        (timeStr (strptimeIMp (strftimeIMp 17 0))) = true
      ↔ secondsOfDay (strptimeIMp (strftimeIMp 9 0))
        < secondsOfDay (strptimeIMp (strftimeIMp 17 0)))
    ∧ (strLt (timeStr ⟨12, 0, 0⟩)
        (timeStr (strptimeIMp (strftimeIMp 9 0))) = true
      ↔ secondsOfDay ⟨12, 0, 0⟩
        < secondsOfDay (strptimeIMp (strftimeIMp 9 0)))
    ∧ (strLt (timeStr (strptimeIMp (strftimeIMp 9 0)))
        (timeStr ⟨12, 0, 0⟩) = true
      ↔ secondsOfDay (strptimeIMp (strftimeIMp 9 0))
        < secondsOfDay ⟨12, 0, 0⟩) :=
  c10_string_time_refinement (strftimeIMp 9 0) (strftimeIMp 17 0)
    ⟨12, 0, 0⟩ (by decide) (by decide) (by decide)
